import Mathlib

/-!
Shallow embedding of the streaming chat state machine of
`src/frontend/src/reducers/appReducer.ts` (which also bundles the
`ChatService` dispatcher/orchestrator and the `AppState`/`AppAction`
contracts from `types/appState.ts`).

TypeScript strings become `String`, `x: T | undefined` and `x: T | null`
become `Option T`, JavaScript truthiness of optional strings is made
explicit (`jsTruthy`, `jsOrString`), and the impure timestamp
`new Date().toISOString()` is threaded as an explicit `now` argument.
`Array.prototype.findIndex` followed by a copy-and-set of the found slot is
embedded as `updateMessage`, which rewrites the first message whose `id`
matches and reports a miss as `none` (the reducer then returns `state`
unchanged, exactly as the source does for `findIndex === -1`).
-/

namespace FoundryAgentWebapp

/-- Authentication status of `AppState.auth.status`. -/
inductive AuthStatus where
  | initializing
  | authenticated
  | unauthenticated
  | error
deriving DecidableEq, Repr

/-- Chat status of `AppState.chat.status`. -/
inductive ChatStatus where
  | idle
  | sending
  | streaming
  | error
deriving DecidableEq, Repr

/-- Message role (`user`, `assistant`, or the synthesized `approval`). -/
inductive Role where
  | user
  | assistant
  | approval
deriving DecidableEq, Repr

/-- Opaque MSAL account identity (`AccountInfo`); only its presence matters. -/
structure AccountInfo where
  username : String
deriving DecidableEq, Repr

/-- Structured application error (`AppError`): a kind/code, a human message,
and the `recoverable` flag consumed by the reducer's `CHAT_ERROR` case. -/
structure AppError where
  code : String
  message : String
  recoverable : Bool
deriving DecidableEq, Repr

/-- One annotation entry of an `annotations` stream event (`IAnnotation`);
the reducer treats these as opaque list elements. -/
structure AnnotationItem where
  kind : String
  label : String
deriving DecidableEq, Repr

/-- Token usage and timing reported by the `usage` stream event (`IUsageInfo`). -/
structure UsageInfo where
  promptTokens : Nat
  completionTokens : Nat
  totalTokens : Nat
  duration : Nat
deriving DecidableEq, Repr

/-- Inbound MCP approval request payload (`IMcpApprovalRequest`). -/
structure McpApprovalRequest where
  id : String
  toolName : String
  serverLabel : String
  arguments : Option String
deriving DecidableEq, Repr

/-- The `mcpApproval` field stored on an approval message: the spread of the
request (`...action.approvalRequest`) plus `previousResponseId`. -/
structure McpApproval where
  id : String
  toolName : String
  serverLabel : String
  arguments : Option String
  previousResponseId : String
deriving DecidableEq, Repr

/-- Attachment metadata shown in the UI (shape of `createAttachmentMetadata`
output; opaque to the reducer). -/
structure Attachment where
  name : String
  mimeType : String
deriving DecidableEq, Repr

/-- The `more` bag on a message: creation time and, after completion, usage. -/
structure MessageMore where
  time : Option String := none
  usage : Option UsageInfo := none
deriving DecidableEq, Repr

/-- One chat message (`IChatItem`). -/
structure Message where
  id : String
  role : Role
  content : String
  attachments : Option (List Attachment) := none
  annotations : Option (List AnnotationItem) := none
  more : Option MessageMore := none
  duration : Option Nat := none
  mcpApproval : Option McpApproval := none
deriving DecidableEq, Repr

/-- `AppState.auth`. -/
structure AuthState where
  status : AuthStatus
  user : Option AccountInfo
  error : Option String
deriving DecidableEq, Repr

/-- `AppState.chat`. -/
structure ChatState where
  status : ChatStatus
  messages : List Message
  currentConversationId : Option String
  lastResponseId : Option String
  error : Option AppError
  streamingMessageId : Option String
deriving DecidableEq, Repr

/-- `AppState.ui`. -/
structure UiState where
  chatInputEnabled : Bool
deriving DecidableEq, Repr

/-- The whole application state (`AppState`). -/
structure AppState where
  auth : AuthState
  chat : ChatState
  ui : UiState
deriving DecidableEq, Repr

/-- The `AppAction` discriminated union. -/
inductive AppAction where
  | AUTH_INITIALIZED (user : AccountInfo)
  | AUTH_TOKEN_EXPIRED
  | CHAT_SEND_MESSAGE (message : Message)
  | CHAT_START_STREAM (conversationId : Option String) (messageId : String)
  | CHAT_STREAM_CHUNK (messageId : String) (content : String)
  | CHAT_STREAM_ANNOTATIONS (messageId : String) (annotations : List AnnotationItem)
  | CHAT_MCP_APPROVAL_REQUEST (messageId : String) (approvalRequest : McpApprovalRequest)
      (previousResponseId : Option String)
  | CHAT_STREAM_COMPLETE (usage : UsageInfo) (responseId : Option String)
  | CHAT_CANCEL_STREAM
  | CHAT_ERROR (error : AppError)
  | CHAT_CLEAR_ERROR
  | CHAT_CLEAR
  | CHAT_ADD_ASSISTANT_MESSAGE (messageId : String)
deriving DecidableEq, Repr

/-- JavaScript truthiness of a `string | null | undefined` value: `null`,
`undefined` and the empty string are falsy. -/
def jsTruthy : Option String → Bool
  | none => false
  | some s => !(s == "")

/-- The JavaScript expression `a || b` on optional strings: `a` when truthy,
otherwise `b` (so an empty string on the left falls through to `b`). -/
def jsOrString (a b : Option String) : Option String :=
  if jsTruthy a then a else b

/-- Rewrite the first message whose `id` equals `mid` with `f`; `none` when no
message matches. This embeds the source pattern
`findIndex(msg => msg.id === action.messageId)` followed by
`updatedMessages[messageIndex] = { ...old, ... }` (and `findIndex === -1`
mapping to the `return state` branch). -/
def updateMessage (mid : String) (f : Message → Message) : List Message → Option (List Message)
  | [] => none
  | m :: rest =>
    if m.id = mid then some (f m :: rest)
    else (updateMessage mid f rest).map (fun tail => m :: tail)

/-- The pure reducer `appReducer(state, action)`. The `now` argument stands for
`new Date().toISOString()` evaluated in the `CHAT_ADD_ASSISTANT_MESSAGE` case. -/
def appReducer (now : String) (state : AppState) (action : AppAction) : AppState :=
  match action with
  | .AUTH_INITIALIZED user =>
    { state with auth := { status := .authenticated, user := some user, error := none } }
  | .AUTH_TOKEN_EXPIRED =>
    { state with auth := { state.auth with status := .unauthenticated } }
  | .CHAT_SEND_MESSAGE message =>
    { state with chat := { state.chat with
        status := .sending,
        messages := state.chat.messages ++ [message] } }
  | .CHAT_ADD_ASSISTANT_MESSAGE messageId =>
    { state with chat := { state.chat with
        messages := state.chat.messages ++
          [{ id := messageId, role := .assistant, content := "",
             more := some { time := some now } }] } }
  | .CHAT_START_STREAM conversationId messageId =>
    { state with
      chat := { state.chat with
        status := .streaming,
        currentConversationId := jsOrString conversationId state.chat.currentConversationId,
        streamingMessageId := some messageId,
        error := none },
      ui := { state.ui with chatInputEnabled := false } }
  | .CHAT_STREAM_CHUNK messageId content =>
    match updateMessage messageId
        (fun m => { m with content := m.content ++ content }) state.chat.messages with
    | none => state
    | some updatedMessages =>
      { state with chat := { state.chat with messages := updatedMessages } }
  | .CHAT_STREAM_ANNOTATIONS messageId annotations =>
    match updateMessage messageId
        (fun m => { m with
          annotations := some ((m.annotations.getD []) ++ annotations) }) state.chat.messages with
    | none => state
    | some updatedMessages =>
      { state with chat := { state.chat with messages := updatedMessages } }
  | .CHAT_MCP_APPROVAL_REQUEST messageId approvalRequest previousResponseId =>
    let approvalMessage : Message :=
      { id := "approval-" ++ messageId,
        role := .approval,
        content := "",
        mcpApproval := some
          { id := approvalRequest.id,
            toolName := approvalRequest.toolName,
            serverLabel := approvalRequest.serverLabel,
            arguments := approvalRequest.arguments,
            previousResponseId := previousResponseId.getD "" } }
    { state with
      chat := { state.chat with
        messages := state.chat.messages ++ [approvalMessage],
        status := .idle },
      ui := { state.ui with chatInputEnabled := false } }
  | .CHAT_STREAM_COMPLETE usage responseId =>
    let updatedMessages := state.chat.messages.map (fun msg =>
      if state.chat.streamingMessageId = some msg.id then
        { msg with
          more := some { time := msg.more.bind (fun b => b.time), usage := some usage },
          duration := some usage.duration }
      else msg)
    { state with
      chat := { state.chat with
        status := .idle,
        streamingMessageId := none,
        messages := updatedMessages,
        lastResponseId := jsOrString responseId state.chat.lastResponseId },
      ui := { state.ui with chatInputEnabled := true } }
  | .CHAT_CANCEL_STREAM =>
    { state with
      chat := { state.chat with status := .idle, streamingMessageId := none },
      ui := { state.ui with chatInputEnabled := true } }
  | .CHAT_ERROR error =>
    { state with
      chat := { state.chat with
        status := .error,
        error := some error,
        streamingMessageId := none },
      ui := { state.ui with chatInputEnabled := error.recoverable } }
  | .CHAT_CLEAR_ERROR =>
    { state with
      chat := { state.chat with error := none, status := .idle },
      ui := { state.ui with chatInputEnabled := true } }
  | .CHAT_CLEAR =>
    { state with
      chat := { status := .idle, messages := [], currentConversationId := none,
                lastResponseId := none, error := none, streamingMessageId := none },
      ui := { state.ui with chatInputEnabled := true } }

/-- `initialAppState` from `types/appState.ts`. -/
def initialAppState : AppState :=
  { auth := { status := .initializing, user := none, error := none },
    chat := { status := .idle, messages := [], currentConversationId := none,
              lastResponseId := none, error := none, streamingMessageId := none },
    ui := { chatInputEnabled := true } }

/-- Fold a sequence of dispatched intents through the reducer. -/
def applyIntents (now : String) (s : AppState) (intents : List AppAction) : AppState :=
  intents.foldl (appReducer now) s

/-!
Stream-orchestration model: `ChatService.processStream` consumes decoded SSE
events and dispatches reducer intents. Events are modelled already decoded
(the SSE parser lives in `utils/sseParser.ts`, outside the reducer file);
the loop-local mutable variables `newConversationId` and `lastChunkContent`
become the explicit `LoopState` threaded through `handleEvent`/`runEvents`.
-/

/-- A decoded SSE event as switched on in `processStream`. `dataError` stands
for a record whose `data.error` field is present (checked before the switch). -/
inductive SseEvent where
  | conversationId (cid : String)
  | chunk (content : String)
  | annotations (annotationList : List AnnotationItem)
  | mcpApprovalRequest (req : McpApprovalRequest)
  | usage (u : UsageInfo) (responseId : Option String)
  | done
  | errorEvt (message : String)
  | dataError (message : String)
deriving DecidableEq, Repr

/-- The loop-local mutable state of `processStream`. -/
structure LoopState where
  newConversationId : Option String
  lastChunkContent : Option String
deriving DecidableEq, Repr

/-- Modelled from the spec: `utils/errorHandler.createAppError` (not under
`src/`) wraps a raw error into a structured error carrying a kind/code, a
message and a `recoverable` flag. The spec does not pin the flag's value;
the theorems below never depend on it. -/
def createAppError (message : String) (code : String) : AppError :=
  { code := code, message := message, recoverable := true }

/-- Modelled from the spec: `utils/errorHandler.isTokenExpiredError` (not
under `src/`) recognizes the expired-token condition that the spec ties to an
HTTP 401 / expired bearer token, carried as a dedicated error kind distinct
from the generic `AUTH` acquisition failure and from `STREAM`/validation
errors. -/
def isTokenExpiredError (e : AppError) : Bool :=
  e.code == "AUTH_EXPIRED"

/-- Intents dispatched and loop-state update for one non-terminating event in
the `processStream` switch (the `done`/`error` terminations are interpreted by
`runEvents`, which never forwards them here). -/
def handleEvent (messageId : String) (ls : LoopState) : SseEvent → List AppAction × LoopState
  | .conversationId cid =>
    if jsTruthy ls.newConversationId then ([], ls)
    else ([AppAction.CHAT_START_STREAM (some cid) messageId],
          { ls with newConversationId := some cid })
  | .chunk content =>
    if ls.lastChunkContent = some content then ([], ls)
    else ([AppAction.CHAT_STREAM_CHUNK messageId content],
          { ls with lastChunkContent := some content })
  | .annotations annotationList =>
    if annotationList.isEmpty then ([], ls)
    else ([AppAction.CHAT_STREAM_ANNOTATIONS messageId annotationList], ls)
  | .mcpApprovalRequest req =>
    ([AppAction.CHAT_MCP_APPROVAL_REQUEST messageId req ls.newConversationId], ls)
  | .usage u responseId =>
    ([AppAction.CHAT_STREAM_COMPLETE u responseId], ls)
  | .done => ([], ls)
  | .errorEvt _ => ([], ls)
  | .dataError _ => ([], ls)

/-- The event loop of `processStream` over an already-decoded event list:
`done` returns, an `error` event (or a record with `data.error`) dispatches a
`CHAT_ERROR` and throws (ending the loop; the further catch-block dispatches
are modelled separately by `processStreamCatchR`), and every other event is
handled by `handleEvent`. Returns the dispatched intents and final loop state. -/
def runEvents (messageId : String) (ls : LoopState) : List SseEvent → List AppAction × LoopState
  | [] => ([], ls)
  | SseEvent.done :: _ => ([], ls)
  | SseEvent.errorEvt msg :: _ =>
    ([AppAction.CHAT_ERROR
        (createAppError ("Stream error for message " ++ messageId ++ ": " ++ msg) "STREAM")], ls)
  | SseEvent.dataError msg :: _ =>
    ([AppAction.CHAT_ERROR (createAppError msg "STREAM")], ls)
  | e :: rest =>
    let step := handleEvent messageId ls e
    let next := runEvents messageId step.2 rest
    (step.1 ++ next.1, next.2)

/-- The adjacent-duplicate filter realized by the `chunk` case: keep a payload
exactly when it differs from the previous kept payload, seeded with `last`
(the value of `lastChunkContent` when the sequence starts). -/
def dedupFrom : Option String → List String → List String
  | _, [] => []
  | last, c :: cs =>
    if last = some c then dedupFrom last cs
    else c :: dedupFrom (some c) cs

/-- The payloads that differ from their immediately preceding accepted
predecessor, starting from no accepted chunk (stream start). -/
def distinctFromPredecessor (cs : List String) : List String :=
  dedupFrom none cs

/-- Concatenation of a list of strings in order. -/
def concatAll : List String → String
  | [] => ""
  | s :: rest => s ++ concatAll rest

/-!
Error-path model: the values thrown across the `processStream` /
`sendMessage` catch blocks, and the intents each catch block dispatches.
-/

/-- A thrown value as classified by the catch blocks: either a `DOMException`
named `AbortError` (the network-level abort signal) or an `Error` that already
carries a `code` property (an `AppError`, satisfying `isAppError`). -/
inductive Thrown where
  | domAbort
  | appErr (e : AppError)
deriving DecidableEq, Repr

/-- The `AppError` view of the abort `DOMException` reused by the
`processStream` catch block (a `DOMException` is an `Error` and exposes a
legacy `code` property, so the `'code' in error` test keeps the object
itself). The field values are irrelevant to every theorem below. -/
def domAbortAppError : AppError :=
  { code := "20", message := "The user aborted a request.", recoverable := false }

/-- The catch block of `processStream`: a `DOMException` abort with the
cancellation flag set returns silently (no intent, nothing rethrown); any
other throw dispatches one `CHAT_ERROR` and rethrows the original value. -/
def processStreamCatchR (streamCancelled : Bool) : Thrown → List AppAction × Option Thrown
  | .domAbort =>
    if streamCancelled then ([], none)
    else ([AppAction.CHAT_ERROR domAbortAppError], some Thrown.domAbort)
  | .appErr e => ([AppAction.CHAT_ERROR e], some (Thrown.appErr e))

/-- The catch block of `sendMessage`: an abort returns silently; otherwise an
expired-token error additionally flips auth status, and a `CHAT_ERROR` is
always dispatched (an existing `AppError` is forwarded as-is). -/
def sendMessageCatchIntents : Thrown → List AppAction
  | .domAbort => []
  | .appErr e =>
    (if isTokenExpiredError e then [AppAction.AUTH_TOKEN_EXPIRED] else [])
      ++ [AppAction.CHAT_ERROR e]

/-- End-to-end intents of a `sendMessage` run in which the network abort
signal is raised inside the stream-processing loop: the `processStream` catch
runs first and, when it rethrows, the `sendMessage` catch runs on the same
thrown value. -/
def streamRunAbortIntents (streamCancelled : Bool) : List AppAction :=
  let caught := processStreamCatchR streamCancelled Thrown.domAbort
  caught.1 ++ (match caught.2 with
    | none => []
    | some t => sendMessageCatchIntents t)

/-- The error thrown by `ensureAuthToken` when `getAccessToken` yields no
token: `createAppError(new Error('Failed to acquire access token'), 'AUTH')`. -/
def tokenFailError : AppError :=
  createAppError "Failed to acquire access token" "AUTH"

/-- Modelled from the spec: the error produced when attachment conversion
fails inside `prepareMessagePayload` (`createAppError(error)` with the
default code derivation living in `utils/errorHandler`, not under `src/`);
the spec's taxonomy classes a rejected attachment as a validation failure. -/
def attachFailError (raw : String) : AppError :=
  createAppError raw "VALIDATION"

/-- The two failure points of `sendMessage` that precede every optimistic UI
dispatch: token acquisition and attachment conversion. -/
inductive EarlyFailure where
  | tokenFail
  | attachFail (raw : String)
deriving DecidableEq, Repr

/-- All intents a `sendMessage` invocation dispatches when it fails at an
early failure point: the conditional `CHAT_CANCEL_STREAM` for a previously
active stream, then (for an attachment failure) the `CHAT_ERROR` dispatched
inside `prepareMessagePayload` before it rethrows, then the `sendMessage`
catch block on the thrown `AppError`. -/
def sendMessageEarlyFailIntents (priorStreamActive : Bool) : EarlyFailure → List AppAction
  | .tokenFail =>
    (if priorStreamActive then [AppAction.CHAT_CANCEL_STREAM] else [])
      ++ sendMessageCatchIntents (Thrown.appErr tokenFailError)
  | .attachFail raw =>
    (if priorStreamActive then [AppAction.CHAT_CANCEL_STREAM] else [])
      ++ [AppAction.CHAT_ERROR (attachFailError raw)]
      ++ sendMessageCatchIntents (Thrown.appErr (attachFailError raw))

/-- Whether an intent is a `CHAT_ERROR`. -/
def isChatErrorIntent : AppAction → Bool
  | .CHAT_ERROR _ => true
  | _ => false

/-- Whether an intent is one of the three optimistic-UI intents of a send
(`CHAT_SEND_MESSAGE`, `CHAT_ADD_ASSISTANT_MESSAGE`, `CHAT_START_STREAM`). -/
def isOptimisticUiIntent : AppAction → Bool
  | .CHAT_SEND_MESSAGE _ => true
  | .CHAT_ADD_ASSISTANT_MESSAGE _ => true
  | .CHAT_START_STREAM _ _ => true
  | _ => false

/-- Whether a `CHAT_START_STREAM` intent carries a conversation id. -/
def carriesConversationId : AppAction → Bool
  | .CHAT_START_STREAM (some _) _ => true
  | _ => false

/-!
Concrete states used by the closed witnesses and the counterexample below.
-/

/-- A fresh assistant placeholder, the streaming target of the C1 witness. -/
def c1WitnessMsg : Message := { id := "m", role := Role.assistant, content := "" }

/-- Initial state holding only the assistant placeholder `c1WitnessMsg`. -/
def c1WitnessState : AppState :=
  { initialAppState with chat := { initialAppState.chat with messages := [c1WitnessMsg] } }

/-- A state with no live stream (`streamingMessageId = none`) but a message
whose id a late chunk event can still hit. -/
def c2State : AppState :=
  { initialAppState with chat := { initialAppState.chat with
      messages := [{ id := "1", role := Role.assistant, content := "A" }] } }

/-- A one-message state whose only id differs from the witness target. -/
def c2AmState : AppState :=
  { initialAppState with chat := { initialAppState.chat with
      messages := [{ id := "2", role := Role.user, content := "hi" }] } }

/-- A one-message state used by the unknown-id no-op witness. -/
def c4State : AppState :=
  { initialAppState with chat := { initialAppState.chat with
      messages := [{ id := "1", role := Role.assistant, content := "A" }] } }

/-- A state whose conversation id is already set. -/
def c7State : AppState :=
  { initialAppState with chat := { initialAppState.chat with
      currentConversationId := some "conv" } }

/-!
Supporting lemmas, shared by the claim theorems.
-/

/-- The loop over a pure chunk-event sequence dispatches exactly one
`CHAT_STREAM_CHUNK` per payload that survives the adjacent-duplicate filter
seeded with the loop's current `lastChunkContent`. -/
theorem runEvents_chunk_intents (mid : String) (cs : List String) : ∀ (ls : LoopState),
    (runEvents mid ls (cs.map SseEvent.chunk)).1
      = (dedupFrom ls.lastChunkContent cs).map (fun c => AppAction.CHAT_STREAM_CHUNK mid c) := by
  induction cs with
  | nil => intro ls; rfl
  | cons c cs ih =>
    intro ls
    by_cases h : ls.lastChunkContent = some c
    · simp [runEvents, handleEvent, dedupFrom, h, ih]
    · simp [runEvents, handleEvent, dedupFrom, h, ih]

/-- `updateMessage` rewrites exactly the first matching message. -/
theorem updateMessage_found (mid : String) (f : Message → Message) :
    ∀ (pre : List Message) (m : Message) (post : List Message),
      m.id = mid → (∀ p ∈ pre, p.id ≠ mid) →
      updateMessage mid f (pre ++ m :: post) = some (pre ++ f m :: post) := by
  intro pre
  induction pre with
  | nil => intro m post hm _; simp [updateMessage, hm]
  | cons p pre ih =>
    intro m post hm hp
    have hpne : p.id ≠ mid := hp p (by simp)
    have hrec := ih m post hm (fun q hq => hp q (by simp [hq]))
    simp [updateMessage, hpne, hrec]

/-- `updateMessage` reports a miss when no message has the target id. -/
theorem updateMessage_miss (mid : String) (f : Message → Message) :
    ∀ (msgs : List Message), (∀ p ∈ msgs, p.id ≠ mid) →
      updateMessage mid f msgs = none := by
  intro msgs
  induction msgs with
  | nil => intro _; rfl
  | cons p rest ih =>
    intro hp
    have hpne : p.id ≠ mid := hp p (by simp)
    simp [updateMessage, hpne, ih (fun q hq => hp q (by simp [hq]))]

/-- Folding a list of `CHAT_STREAM_CHUNK` intents through the reducer appends
the concatenation of their payloads to the first message with the target id
and leaves every other message untouched. -/
theorem applyIntents_chunks (now mid : String) (ds : List String) :
    ∀ (s : AppState) (pre : List Message) (m : Message) (post : List Message),
      s.chat.messages = pre ++ m :: post → m.id = mid → (∀ p ∈ pre, p.id ≠ mid) →
      (applyIntents now s (ds.map (fun c => AppAction.CHAT_STREAM_CHUNK mid c))).chat.messages
        = pre ++ { m with content := m.content ++ concatAll ds } :: post := by
  induction ds with
  | nil =>
    intro s pre m post hs hm _
    simpa [applyIntents, concatAll] using hs
  | cons d ds ih =>
    intro s pre m post hs hm hp
    have hupd : updateMessage mid (fun mm => { mm with content := mm.content ++ d })
        s.chat.messages = some (pre ++ { m with content := m.content ++ d } :: post) := by
      rw [hs]; exact updateMessage_found mid _ pre m post hm hp
    have hstep : (appReducer now s (AppAction.CHAT_STREAM_CHUNK mid d)).chat.messages
        = pre ++ { m with content := m.content ++ d } :: post := by
      simp [appReducer, hupd]
    have := ih (appReducer now s (AppAction.CHAT_STREAM_CHUNK mid d)) pre
      { m with content := m.content ++ d } post hstep hm hp
    simpa [applyIntents, String.append_assoc] using this

/-!
Claim theorems.
-/

/-- C1: after the stream loop processes a finite sequence of `chunk` events
targeting the streaming message, that message's final content is the
concatenation, in arrival order, of exactly the chunk payloads that differ
from the immediately preceding accepted payload (immediate duplicates
dropped, non-adjacent repeats kept); all other messages are unchanged. -/
theorem chunk_stream_content_concatenation (now : String) (s : AppState) (mid : String)
    (cs : List String) (pre : List Message) (m : Message) (post : List Message)
    (hs : s.chat.messages = pre ++ m :: post) (hm : m.id = mid)
    (hp : ∀ p ∈ pre, p.id ≠ mid) :
    (applyIntents now s
        ((runEvents mid
            { newConversationId := s.chat.currentConversationId, lastChunkContent := none }
            (cs.map SseEvent.chunk)).1)).chat.messages
      = pre ++ { m with content := m.content ++ concatAll (distinctFromPredecessor cs) } :: post := by
  rw [runEvents_chunk_intents]
  exact applyIntents_chunks now mid (distinctFromPredecessor cs) s pre m post hs hm hp

/-- Witness for C1: chunks "Hel", "Hel", "lo" on an empty assistant
placeholder yield the content "Hello" (the immediate duplicate dropped). -/
theorem chunk_stream_content_concatenation_witness :
    (applyIntents "t" c1WitnessState
        ((runEvents "m"
            { newConversationId := c1WitnessState.chat.currentConversationId,
              lastChunkContent := none }
            ((["Hel", "Hel", "lo"]).map SseEvent.chunk)).1)).chat.messages
      = [{ id := "m", role := Role.assistant, content := "Hello" }] := by
  have h := chunk_stream_content_concatenation "t" c1WitnessState "m" ["Hel", "Hel", "lo"]
    [] c1WitnessMsg [] rfl rfl (by simp)
  exact h.trans (by decide)

/-- Counterexample to C2 as stated: in a state whose `streamingMessageId` is
absent, a `CHAT_STREAM_CHUNK` whose `messageId` still matches a message does
change that message's content — the reducer never consults
`streamingMessageId` in its chunk/annotation cases. -/
theorem streaming_id_absent_chunk_not_noop :
    c2State.chat.streamingMessageId = none ∧
    (appReducer "t" c2State (AppAction.CHAT_STREAM_CHUNK "1" "B")).chat.messages
      ≠ c2State.chat.messages := by
  constructor
  · rfl
  · decide

/-- C2 (amended): a `CHAT_STREAM_CHUNK` or `CHAT_STREAM_ANNOTATIONS` intent is
a no-op exactly when its `messageId` matches no message in `chat.messages`;
absence of `chat.streamingMessageId` by itself does not make them no-ops. -/
theorem chunk_annotation_noop_on_unknown_target (now : String) (s : AppState) (mid : String)
    (c : String) (anns : List AnnotationItem)
    (h : ∀ p ∈ s.chat.messages, p.id ≠ mid) :
    appReducer now s (AppAction.CHAT_STREAM_CHUNK mid c) = s ∧
    appReducer now s (AppAction.CHAT_STREAM_ANNOTATIONS mid anns) = s := by
  constructor
  · simp [appReducer, updateMessage_miss mid _ s.chat.messages h]
  · simp [appReducer, updateMessage_miss mid _ s.chat.messages h]

/-- Witness for the amended C2 at a concrete state and unmatched id. -/
theorem chunk_annotation_noop_on_unknown_target_witness :
    appReducer "u" c2AmState (AppAction.CHAT_STREAM_CHUNK "gone" "x") = c2AmState ∧
    appReducer "u" c2AmState (AppAction.CHAT_STREAM_ANNOTATIONS "gone" []) = c2AmState :=
  chunk_annotation_noop_on_unknown_target "u" c2AmState "gone" "x" [] (by decide)

/-- C3: a network-level abort raised inside the stream-processing loop while
the cancellation flag is set ends the run with no intent dispatched at all
(benign cancellation); the same abort raised without the flag set dispatches
a chat-error intent (genuine transport failure escalated). -/
theorem abort_error_classification :
    streamRunAbortIntents true = [] ∧
    streamRunAbortIntents false = [AppAction.CHAT_ERROR domAbortAppError] := by
  constructor <;> rfl

/-- C4: a `CHAT_STREAM_CHUNK` or `CHAT_STREAM_ANNOTATIONS` intent whose
`messageId` matches no message returns the input state itself (the source
returns the `state` reference unchanged; in this embedding, the identical
state value). -/
theorem unknown_message_id_referential_noop (now : String) (s : AppState) (mid : String)
    (c : String) (anns : List AnnotationItem)
    (h : (s.chat.messages.all fun m => !(m.id == mid)) = true) :
    appReducer now s (AppAction.CHAT_STREAM_CHUNK mid c) = s ∧
    appReducer now s (AppAction.CHAT_STREAM_ANNOTATIONS mid anns) = s := by
  have h' : ∀ p ∈ s.chat.messages, p.id ≠ mid := by
    intro p hp
    have := List.all_eq_true.mp h p hp
    simpa using this
  constructor
  · simp [appReducer, updateMessage_miss mid _ s.chat.messages h']
  · simp [appReducer, updateMessage_miss mid _ s.chat.messages h']

/-- Witness for C4 at a concrete one-message state and unknown id. -/
theorem unknown_message_id_referential_noop_witness :
    appReducer "t" c4State (AppAction.CHAT_STREAM_CHUNK "zzz" "x") = c4State ∧
    appReducer "t" c4State (AppAction.CHAT_STREAM_ANNOTATIONS "zzz" []) = c4State :=
  unknown_message_id_referential_noop "t" c4State "zzz" "x" [] (by decide)

/-- C5: a `CHAT_ERROR` intent leaves `chat.messages` — including all content
and annotations already accumulated on the streaming message — unchanged. -/
theorem chat_error_preserves_messages (now : String) (s : AppState) (e : AppError) :
    (appReducer now s (AppAction.CHAT_ERROR e)).chat.messages = s.chat.messages := rfl

/-- C6: when `sendMessage` fails at token acquisition or attachment
conversion, no `CHAT_SEND_MESSAGE`, `CHAT_ADD_ASSISTANT_MESSAGE`, or
`CHAT_START_STREAM` intent is ever emitted; apart from the
`CHAT_CANCEL_STREAM` that tears down a previously active stream, every
emitted intent is a `CHAT_ERROR`, and at least one `CHAT_ERROR` is emitted. -/
theorem early_failure_only_chat_error_intents (priorStreamActive : Bool) (f : EarlyFailure) :
    ((sendMessageEarlyFailIntents priorStreamActive f).all
        fun a => !(isOptimisticUiIntent a)) = true ∧
    ((sendMessageEarlyFailIntents false f).all isChatErrorIntent) = true ∧
    ((sendMessageEarlyFailIntents priorStreamActive f).any isChatErrorIntent) = true := by
  cases f <;> cases priorStreamActive <;>
    simp [sendMessageEarlyFailIntents, sendMessageCatchIntents, isTokenExpiredError,
      tokenFailError, attachFailError, createAppError, isOptimisticUiIntent, isChatErrorIntent]

/-- C7: a non-null `chat.currentConversationId` survives every intent other
than `CHAT_CLEAR` — it stays non-null always, and keeps its exact value
except possibly under a `CHAT_START_STREAM` that carries a conversation id. -/
theorem conversation_id_persistence (now : String) (s : AppState) (a : AppAction) (c : String)
    (h : s.chat.currentConversationId = some c) (hne : a ≠ AppAction.CHAT_CLEAR) :
    (∃ c', (appReducer now s a).chat.currentConversationId = some c') ∧
    (carriesConversationId a = false →
      (appReducer now s a).chat.currentConversationId = some c) := by
  cases a with
  | AUTH_INITIALIZED u => exact ⟨⟨c, h⟩, fun _ => h⟩
  | AUTH_TOKEN_EXPIRED => exact ⟨⟨c, h⟩, fun _ => h⟩
  | CHAT_SEND_MESSAGE msg => exact ⟨⟨c, h⟩, fun _ => h⟩
  | CHAT_ADD_ASSISTANT_MESSAGE mid => exact ⟨⟨c, h⟩, fun _ => h⟩
  | CHAT_START_STREAM cid mid =>
    cases cid with
    | none =>
      refine ⟨⟨c, ?_⟩, fun _ => ?_⟩ <;>
        simpa [appReducer, jsOrString, jsTruthy] using h
    | some x =>
      refine ⟨?_, fun hcar => by simp [carriesConversationId] at hcar⟩
      by_cases hx : x = ""
      · exact ⟨c, by simpa [appReducer, jsOrString, jsTruthy, hx] using h⟩
      · exact ⟨x, by simp [appReducer, jsOrString, jsTruthy, hx]⟩
  | CHAT_STREAM_CHUNK mid ct =>
    have hres : (appReducer now s (AppAction.CHAT_STREAM_CHUNK mid ct)).chat.currentConversationId
        = some c := by
      simp only [appReducer]
      split
      · exact h
      · simpa using h
    exact ⟨⟨c, hres⟩, fun _ => hres⟩
  | CHAT_STREAM_ANNOTATIONS mid anns =>
    have hres : (appReducer now s
        (AppAction.CHAT_STREAM_ANNOTATIONS mid anns)).chat.currentConversationId = some c := by
      simp only [appReducer]
      split
      · exact h
      · simpa using h
    exact ⟨⟨c, hres⟩, fun _ => hres⟩
  | CHAT_MCP_APPROVAL_REQUEST mid req prev => exact ⟨⟨c, h⟩, fun _ => h⟩
  | CHAT_STREAM_COMPLETE u rid => exact ⟨⟨c, h⟩, fun _ => h⟩
  | CHAT_CANCEL_STREAM => exact ⟨⟨c, h⟩, fun _ => h⟩
  | CHAT_ERROR e => exact ⟨⟨c, h⟩, fun _ => h⟩
  | CHAT_CLEAR_ERROR => exact ⟨⟨c, h⟩, fun _ => h⟩
  | CHAT_CLEAR => exact absurd rfl hne

/-- Witness for C7: a set conversation id survives `CHAT_CANCEL_STREAM`. -/
theorem conversation_id_persistence_witness :
    (∃ c', (appReducer "t" c7State AppAction.CHAT_CANCEL_STREAM).chat.currentConversationId
      = some c') ∧
    (carriesConversationId AppAction.CHAT_CANCEL_STREAM = false →
      (appReducer "t" c7State AppAction.CHAT_CANCEL_STREAM).chat.currentConversationId
        = some "conv") :=
  conversation_id_persistence "t" c7State AppAction.CHAT_CANCEL_STREAM "conv" rfl (by decide)

/-- C8: `CHAT_ERROR` copies the carried error's `recoverable` flag into
`ui.chatInputEnabled` — never a fixed constant. -/
theorem chat_error_input_enabled_from_recoverable (now : String) (s : AppState) (e : AppError) :
    (appReducer now s (AppAction.CHAT_ERROR e)).ui.chatInputEnabled = e.recoverable := rfl

/-- C9: `CHAT_CLEAR` is idempotent on the whole state (chat, ui, and auth):
applying it twice equals applying it once. -/
theorem chat_clear_idempotent (now : String) (s : AppState) :
    appReducer now (appReducer now s AppAction.CHAT_CLEAR) AppAction.CHAT_CLEAR
      = appReducer now s AppAction.CHAT_CLEAR := rfl

/-- C10: an `mcpApprovalRequest` event makes the loop dispatch a
`CHAT_MCP_APPROVAL_REQUEST` whose `previousResponseId` is the loop's tracked
conversation id (possibly null) — `usage` events, which carry the
completed-turn response id, never touch that tracked id — and the reducer
stores it verbatim (empty string when null) inside a new approval message
whose id is `approval-` prefixed to the streaming message id. -/
theorem mcp_approval_carries_stream_conversation_id (now : String) (mid : String)
    (ls : LoopState) (req : McpApprovalRequest) (s : AppState) (u : UsageInfo)
    (rid : Option String) :
    handleEvent mid ls (SseEvent.mcpApprovalRequest req)
      = ([AppAction.CHAT_MCP_APPROVAL_REQUEST mid req ls.newConversationId], ls) ∧
    (appReducer now s
        (AppAction.CHAT_MCP_APPROVAL_REQUEST mid req ls.newConversationId)).chat.messages
      = s.chat.messages ++
        [{ id := "approval-" ++ mid, role := Role.approval, content := "",
           mcpApproval := some
             { id := req.id, toolName := req.toolName, serverLabel := req.serverLabel,
               arguments := req.arguments,
               previousResponseId := ls.newConversationId.getD "" } }] ∧
    (handleEvent mid ls (SseEvent.usage u rid)).2.newConversationId = ls.newConversationId :=
  ⟨rfl, rfl, rfl⟩

end FoundryAgentWebapp
